import Mathlib

/-!
Shallow embedding of the Onagre launcher controller (`src/ui/app.rs`).

The controller sits between keyboard/text events and the pop-launcher
daemon.  We embed the controller state, the selection state machine
(`inc_selected` / `dec_selected`), the input-changed flow, the
response handler (`on_pop_launcher_message`), the execution flow
(`on_execute`) and the request dispatcher (`pop_request`).

Rust panics (`unwrap`, `expect`, `todo!`) are modelled as
`Except.error` with the panic message; process termination and other
side effects (requests actually sent, history persistence, process
spawn) are modelled as an explicit effect list.  Scroll handling
(`snap`, `scroll.snap_to`) only touches the presentation-layer scroll
offset, which is outside the embedded state.
-/

/-- Embeds `pop_launcher::Request` — controller → daemon messages (u32 indices
are in-range Nats here; the code only casts usize to u32). -/
inductive PopRequest where
  | Search (query : String)
  | Activate (idx : Nat)
  | Complete (idx : Nat)
deriving Repr, DecidableEq

/-- An entry of the live daemon result list (`PopSearchResult`): the
fields of it the controller reads are `id` and `name`. -/
structure PopEntry where
  id : Nat
  name : String
deriving Repr, DecidableEq

/-- Embeds `PopResponse` — daemon → controller messages. -/
inductive PopResponse where
  | Close
  | Context
  | DesktopEntry (path : String)
  | Update (entries : List PopEntry)
  | Fill (text : String)
deriving Repr, DecidableEq

/-- Embeds `SubscriptionMessage`: either the one-time channel-ready signal
carrying the sender, or a daemon response. -/
inductive SubscriptionMessage where
  | Ready
  | PopMessage (r : PopResponse)
deriving Repr, DecidableEq

/-- Embeds `Selection` (`src/ui/state.rs`, as used by `app.rs`): unselected,
or an index in the history domain, or an index in the live pop-launcher
results domain. -/
inductive Selection where
  | Reset
  | History (idx : Nat)
  | PopLauncher (idx : Nat)
deriving Repr, DecidableEq

/-- Embeds `ActiveMode` (`src/ui/mode.rs`, as pattern-matched by `app.rs`):
plugin mode (with a browsing-history flag), web mode, desktop-entry
launch history, and the default desktop-entry search. -/
inductive ActiveMode where
  | Plugin (plugin_name : String) (modifier : String) (history : Bool)
  | Web (web_name : String)
  | History
  | DesktopEntry
deriving Repr, DecidableEq

/-- A persisted plugin history record (`PluginCommandEntity`): the
controller reads its `query` field. -/
structure PluginRecord where
  query : String
deriving Repr, DecidableEq

/-- A persisted web history record (`WebEntity`): the controller reads
`entry.query()`. -/
structure WebRecord where
  query : String
deriving Repr, DecidableEq

/-- A persisted desktop-entry history record (`DesktopEntryEntity`):
the controller reads its `path`. -/
structure DeRecord where
  path : String
deriving Repr, DecidableEq

/-- The history cache facade (`self.state.cache`): per-mode ordered
history lists.  The `*_len` cache methods are the lengths of these
lists. -/
structure Cache where
  plugin_history : String → List PluginRecord
  web_history : String → List WebRecord
  de_history : List DeRecord

/-- Observable side effects of a handler, in order of occurrence. -/
inductive Effect where
  | PopReq (r : PopRequest)
  | PersistPlugin (plugin_name : String) (query : String)
  | PersistWeb (query : String) (kind : String)
  | PersistDesktopEntry (path : String)
  | RunCommand (path : String)
  | MoveCursorToEnd
  | Exit
deriving Repr, DecidableEq

/-- The controller state embedded from `Onagre { state: State, .. }`:
the canonical raw input, its modifier/query display split, the
selection, the live results, and the one-shot activation flag. -/
structure OnagreState where
  raw_input : String
  modifier_display : String
  input_display : String
  selected : Selection
  pop_search : List PopEntry
  exec_on_next_search : Bool
  mode : ActiveMode
  cache : Cache

/-- A mode resolver: raw input ↦ (active mode, modifier display, query
display).  The resolver itself lives in `src/ui/state.rs` which is not
part of the sources; handlers are parametrised over it. -/
abbrev Resolver : Type := String → ActiveMode × String × String

/-- Rust's `str::strip_prefix`: `rustStripPfx s p` strips the leading
occurrence of `p` from `s`, or `none` when `p` is not a prefix
(expressed over the character sequences so it evaluates). -/
def rustStripPfx (s p : String) : Option String :=
  if p.data.isPrefixOf s.data then some (String.mk (s.data.drop p.data.length)) else none

/-- Modelled from the spec: `State::set_input` (in `src/ui/state.rs`,
which is not among the sources).  Per the Mode Resolver contract it
recomputes the active mode and the modifier/query display split from
the raw input, the full raw input remaining the canonical query. -/
def set_input (resolve : Resolver) (st : OnagreState) (input : String) : OnagreState :=
  { st with
    raw_input := input
    mode := (resolve input).1
    modifier_display := (resolve input).2.1
    input_display := (resolve input).2.2 }

/-- Modelled from the spec: `State::get_input` (in `src/ui/state.rs`):
the full raw input is the canonical query sent to the daemon. -/
def get_input (st : OnagreState) : String :=
  st.raw_input

/-- Embeds `Onagre::selected`: the numeric index of the selection, if any. -/
def OnagreState.selectedIdx (st : OnagreState) : Option Nat :=
  match st.selected with
  | Selection.Reset => none
  | Selection.History idx => some idx
  | Selection.PopLauncher idx => some idx

/-- Embeds `Onagre::current_entries_len`: the item count of the active mode's
list (history cache length or live result count). -/
def current_entries_len (st : OnagreState) : Nat :=
  match st.mode with
  | ActiveMode.Plugin plugin_name _ history =>
      if history then (st.cache.plugin_history plugin_name).length
      else st.pop_search.length
  | ActiveMode.History => st.cache.de_history.length
  | ActiveMode.DesktopEntry => st.pop_search.length
  | ActiveMode.Web web_name => (st.cache.web_history web_name).length

/-- Embeds `Onagre::dec_selected` (the Up transition). -/
def dec_selected (st : OnagreState) : OnagreState :=
  match st.selected with
  | Selection.Reset => { st with selected := Selection.Reset }
  | Selection.History selected =>
      if selected > 0 then { st with selected := Selection.History (selected - 1) }
      else st
  | Selection.PopLauncher selected =>
      if selected > 0 then { st with selected := Selection.PopLauncher (selected - 1) }
      else st

/-- Embeds `Onagre::inc_selected` (the Down transition). -/
def inc_selected (st : OnagreState) : OnagreState :=
  match st.selected with
  | Selection.Reset => { st with selected := Selection.History 0 }
  | Selection.History selected =>
      let total_items := current_entries_len st
      if total_items ≠ 0 ∧ selected < total_items - 1 then
        { st with selected := Selection.History (selected + 1) }
      else st
  | Selection.PopLauncher selected =>
      let total_items := current_entries_len st
      if total_items ≠ 0 ∧ selected < total_items - 1 then
        { st with selected := Selection.PopLauncher (selected + 1) }
      else st

/-- Embeds `Onagre::current_entry`: resolve the query/path the selection (or,
absent one, live result 0) denotes.  The `selected.unwrap()` in the
`History` arm panics when nothing is selected. -/
def current_entry (st : OnagreState) : Except String (Option String) :=
  match st.mode with
  | ActiveMode.History =>
      match st.selectedIdx with
      | none => Except.error "called Option::unwrap on a None value"
      | some selected => Except.ok ((st.cache.de_history.get? selected).map (fun e => e.path))
  | ActiveMode.Plugin plugin_name modifier _ =>
      match st.selectedIdx with
      | none => Except.ok ((st.pop_search.get? 0).map (fun e => e.name))
      | some selected =>
          Except.ok (((st.cache.plugin_history plugin_name).get? selected).map
            (fun e => modifier ++ e.query))
  | ActiveMode.Web web_name =>
      match st.selectedIdx with
      | none => Except.ok ((st.pop_search.get? 0).map (fun e => e.name))
      | some selected =>
          Except.ok (((st.cache.web_history web_name).get? selected).map (fun e => e.query))
  | ActiveMode.DesktopEntry => Except.ok none

/-- Outcome of `Onagre::pop_request`: `panicNoSender` models the
`request_tx.as_ref().unwrap()` panic when the daemon-ready signal has
not arrived; `sendErr` models `try_send` returning `Err`. -/
inductive SendResult where
  | panicNoSender
  | sendErr
  | ok
deriving Repr, DecidableEq

/-- Embeds `Onagre::pop_request`: unwrap the optional sender and `try_send`
the request.  `tx` is the optional channel end, `sendOk` whether the
underlying `try_send` would succeed on this call. -/
def pop_request (tx : Option Unit) (sendOk : Bool) (_r : PopRequest) : SendResult :=
  match tx with
  | none => SendResult.panicNoSender
  | some _ => if sendOk then SendResult.ok else SendResult.sendErr

/-- Embeds `Onagre::run_command`: persist the desktop entry, spawn the
filtered command line, and exit.  The desktop-file parsing and spawn
are external collaborators, kept as effects. -/
def run_command (st : OnagreState) (path : String) : Except String (OnagreState × List Effect) :=
  Except.ok (st, [Effect.PersistDesktopEntry path, Effect.RunCommand path, Effect.Exit])

/-- Embeds `Onagre::on_input_changed`: set the input (re-resolving the mode),
reset the selection per mode, and — except in the desktop-entry
history mode — send a `Search` for the canonical query, panicking if
the send fails. -/
def on_input_changed (resolve : Resolver) (tx : Option Unit) (sendOk : Bool)
    (st : OnagreState) (input : String) : Except String (OnagreState × List Effect) :=
  let st := set_input resolve st input
  let st := { st with
    selected :=
      match st.mode with
      | ActiveMode.Web _ => Selection.Reset
      | ActiveMode.History => Selection.Reset
      | ActiveMode.Plugin _ _ true => Selection.Reset
      | _ => Selection.PopLauncher 0 }
  match st.mode with
  | ActiveMode.History => Except.ok (st, [])
  | _ =>
      let value := get_input st
      match pop_request tx sendOk (PopRequest.Search value) with
      | SendResult.ok => Except.ok (st, [Effect.PopReq (PopRequest.Search value)])
      | _ => Except.error "Unable to send search request to pop-launcher"

/-- Key codes the controller reacts to (`Onagre::handle_input`). -/
inductive KeyCode where
  | Up
  | Down
  | Enter
  | Tab
  | Escape
  | Other
deriving Repr, DecidableEq

/-- Embeds `Onagre::on_execute` — the confirm (Enter) flow, mode-dependent. -/
def on_execute (resolve : Resolver) (tx : Option Unit) (sendOk : Bool)
    (st : OnagreState) : Except String (OnagreState × List Effect) :=
  match st.mode with
  | ActiveMode.Plugin plugin_name _ true =>
      let persist := Effect.PersistPlugin plugin_name (get_input st)
      match st.selectedIdx with
      | none =>
          match pop_request tx sendOk (PopRequest.Activate 0) with
          | SendResult.ok => Except.ok (st, [persist, Effect.PopReq (PopRequest.Activate 0)])
          | _ => Except.error "Unable to send pop-launcher request"
      | some _ =>
          let st := { st with exec_on_next_search := true }
          match current_entry st with
          | Except.error e => Except.error e
          | Except.ok none => Except.error "called Option::unwrap on a None value"
          | Except.ok (some command) =>
              let st := set_input resolve st command
              match pop_request tx sendOk (PopRequest.Search command) with
              | SendResult.ok =>
                  Except.ok (st, [persist, Effect.PopReq (PopRequest.Search command)])
              | _ => Except.error "Unable to send pop-launcher request"
  | ActiveMode.Web kind =>
      let query := get_input st
      match rustStripPfx query kind with
      | none => Except.error "called Option::unwrap on a None value"
      | some query =>
          let persist := Effect.PersistWeb query kind
          match st.selectedIdx with
          | none =>
              match pop_request tx sendOk (PopRequest.Activate 0) with
              | SendResult.ok => Except.ok (st, [persist, Effect.PopReq (PopRequest.Activate 0)])
              | _ => Except.error "Unable to send pop-launcher request"
          | some _ =>
              match current_entry st with
              | Except.error e => Except.error e
              | Except.ok none => Except.error "called Option::unwrap on a None value"
              | Except.ok (some command) =>
                  let st := set_input resolve st command
                  let st := { st with exec_on_next_search := true }
                  match pop_request tx sendOk (PopRequest.Search command) with
                  | SendResult.ok =>
                      Except.ok (st, [persist, Effect.PopReq (PopRequest.Search command)])
                  | _ => Except.error "Unable to send pop-launcher request"
  | ActiveMode.History =>
      match current_entry st with
      | Except.error e => Except.error e
      | Except.ok none => Except.error "called Option::unwrap on a None value"
      | Except.ok (some path) => run_command st path
  | _ =>
      match st.selectedIdx with
      | none =>
          match pop_request tx sendOk (PopRequest.Activate 0) with
          | SendResult.ok => Except.ok (st, [Effect.PopReq (PopRequest.Activate 0)])
          | _ => Except.error "Unable to send pop-launcher request"
      | some selected =>
          match pop_request tx sendOk (PopRequest.Activate selected) with
          | SendResult.ok => Except.ok (st, [Effect.PopReq (PopRequest.Activate selected)])
          | _ => Except.error "Unable to send pop-launcher request"

/-- Embeds `Onagre::handle_input` — keyboard dispatch. -/
def handle_input (resolve : Resolver) (tx : Option Unit) (sendOk : Bool)
    (st : OnagreState) (key : KeyCode) : Except String (OnagreState × List Effect) :=
  match key with
  | KeyCode.Up => Except.ok (dec_selected st, [])
  | KeyCode.Down => Except.ok (inc_selected st, [])
  | KeyCode.Enter => on_execute resolve tx sendOk st
  | KeyCode.Tab =>
      match st.selectedIdx with
      | some selected =>
          match pop_request tx sendOk (PopRequest.Complete selected) with
          | SendResult.ok => Except.ok (st, [Effect.PopReq (PopRequest.Complete selected)])
          | _ => Except.error "Unable to send request to pop-launcher"
      | none => Except.ok (st, [])
  | KeyCode.Escape => Except.ok (st, [Effect.Exit])
  | KeyCode.Other => Except.ok (st, [])

/-- Embeds `Onagre::on_pop_launcher_message` — the response handler.  Returns
the updated state, the (possibly newly installed) channel end, and the
effects.  `todo!("Discrete graphics is not implemented")` on
`Context` is a panic. -/
def on_pop_launcher_message (resolve : Resolver) (tx : Option Unit) (sendOk : Bool)
    (st : OnagreState) (message : SubscriptionMessage) :
    Except String (OnagreState × Option Unit × List Effect) :=
  match message with
  | SubscriptionMessage.Ready => Except.ok (st, some (), [])
  | SubscriptionMessage.PopMessage response =>
      match response with
      | PopResponse.Close => Except.ok (st, tx, [Effect.Exit])
      | PopResponse.Context =>
          Except.error "not yet implemented: Discrete graphics is not implemented"
      | PopResponse.DesktopEntry path =>
          match run_command st path with
          | Except.ok (st, effects) => Except.ok (st, tx, effects)
          | Except.error e => Except.error e
      | PopResponse.Update search_updates =>
          if st.exec_on_next_search then
            match pop_request tx sendOk (PopRequest.Activate 0) with
            | SendResult.ok => Except.ok (st, tx, [Effect.PopReq (PopRequest.Activate 0)])
            | _ => Except.error "Unable to send Activate request to pop-launcher"
          else Except.ok ({ st with pop_search := search_updates }, tx, [])
      | PopResponse.Fill fill =>
          let modePfx := st.modifier_display
          match rustStripPfx fill modePfx with
          | none => Except.error "Auto-completion Error"
          | some fill =>
              let st := { st with input_display := fill }
              let filled := st.input_display
              match on_input_changed resolve tx sendOk st filled with
              | Except.ok (st, effects) =>
                  Except.ok (st, tx, Effect.MoveCursorToEnd :: effects)
              | Except.error e => Except.error e

/-- Spec-side restatement of the Down transition, following the spec's
words: `Unselected → history-domain index 0`; an indexed state `i`
moves to `i+1` exactly when `i+1 < total_items`, else no-op, staying
in its own index domain. -/
def down_spec (st : OnagreState) : OnagreState :=
  match st.selected with
  | Selection.Reset => { st with selected := Selection.History 0 }
  | Selection.History i =>
      if i + 1 < current_entries_len st then { st with selected := Selection.History (i + 1) }
      else st
  | Selection.PopLauncher i =>
      if i + 1 < current_entries_len st then { st with selected := Selection.PopLauncher (i + 1) }
      else st

/-- The clamping invariant: when the selection holds a numeric index,
that index is below the current mode's item count. -/
def sel_in_bounds (st : OnagreState) : Bool :=
  match st.selected with
  | Selection.Reset => true
  | Selection.History i => decide (i < current_entries_len st)
  | Selection.PopLauncher i => decide (i < current_entries_len st)

/-- The two index domains a numeric selection can live in. -/
inductive SelDomain where
  | hist
  | live
deriving Repr, DecidableEq

/-- The index domain of a selection, when it holds an index. -/
def sel_domain : Selection → Option SelDomain
  | Selection.Reset => none
  | Selection.History _ => some SelDomain.hist
  | Selection.PopLauncher _ => some SelDomain.live

/-- An arrow-key step: Up is `dec_selected`, Down is `inc_selected`. -/
inductive Move where
  | up
  | down
deriving Repr, DecidableEq

/-- Apply one arrow-key step. -/
def apply_move (st : OnagreState) : Move → OnagreState
  | Move.up => dec_selected st
  | Move.down => inc_selected st

/-- Apply a sequence of arrow-key steps, left to right. -/
def apply_moves (st : OnagreState) : List Move → OnagreState
  | [] => st
  | m :: ms => apply_moves (apply_move st m) ms

theorem dec_selected_mode_cache (st : OnagreState) :
    (dec_selected st).mode = st.mode ∧ (dec_selected st).cache = st.cache ∧
      (dec_selected st).pop_search = st.pop_search := by
  unfold dec_selected
  cases st.selected <;> simp <;> split <;> simp

theorem inc_selected_mode_cache (st : OnagreState) :
    (inc_selected st).mode = st.mode ∧ (inc_selected st).cache = st.cache ∧
      (inc_selected st).pop_search = st.pop_search := by
  unfold inc_selected
  cases st.selected <;> simp <;> split <;> simp

theorem current_entries_len_dec (st : OnagreState) :
    current_entries_len (dec_selected st) = current_entries_len st := by
  obtain ⟨h1, h2, h3⟩ := dec_selected_mode_cache st
  unfold current_entries_len
  rw [h1, h2, h3]

theorem current_entries_len_inc (st : OnagreState) :
    current_entries_len (inc_selected st) = current_entries_len st := by
  obtain ⟨h1, h2, h3⟩ := inc_selected_mode_cache st
  unfold current_entries_len
  rw [h1, h2, h3]

theorem dec_selected_sel (st : OnagreState) :
    (dec_selected st).selected =
      match st.selected with
      | Selection.Reset => Selection.Reset
      | Selection.History i => if i > 0 then Selection.History (i - 1) else Selection.History i
      | Selection.PopLauncher i =>
          if i > 0 then Selection.PopLauncher (i - 1) else Selection.PopLauncher i := by
  unfold dec_selected
  cases h : st.selected <;> simp <;> split <;> simp [h]

theorem inc_selected_sel (st : OnagreState) :
    (inc_selected st).selected =
      match st.selected with
      | Selection.Reset => Selection.History 0
      | Selection.History i =>
          if current_entries_len st ≠ 0 ∧ i < current_entries_len st - 1 then
            Selection.History (i + 1)
          else Selection.History i
      | Selection.PopLauncher i =>
          if current_entries_len st ≠ 0 ∧ i < current_entries_len st - 1 then
            Selection.PopLauncher (i + 1)
          else Selection.PopLauncher i := by
  unfold inc_selected
  cases h : st.selected <;> simp <;> split <;> simp [h]

theorem sel_in_bounds_eq (st : OnagreState) :
    sel_in_bounds st =
      match st.selected with
      | Selection.Reset => true
      | Selection.History i => decide (i < current_entries_len st)
      | Selection.PopLauncher i => decide (i < current_entries_len st) := by
  rfl

theorem sel_in_bounds_dec (st : OnagreState) (h : sel_in_bounds st = true) :
    sel_in_bounds (dec_selected st) = true := by
  rw [sel_in_bounds_eq] at h
  rw [sel_in_bounds_eq, dec_selected_sel, current_entries_len_dec]
  cases hs : st.selected with
  | Reset => simp
  | History i =>
      rw [hs] at h
      simp only [decide_eq_true_eq] at h
      by_cases hi : i > 0 <;> simp [hi] <;> omega
  | PopLauncher i =>
      rw [hs] at h
      simp only [decide_eq_true_eq] at h
      by_cases hi : i > 0 <;> simp [hi] <;> omega

theorem sel_in_bounds_inc (st : OnagreState) (hlen : 0 < current_entries_len st)
    (h : sel_in_bounds st = true) : sel_in_bounds (inc_selected st) = true := by
  rw [sel_in_bounds_eq] at h
  rw [sel_in_bounds_eq, inc_selected_sel, current_entries_len_inc]
  cases hs : st.selected with
  | Reset => simpa using hlen
  | History i =>
      rw [hs] at h
      simp only [decide_eq_true_eq] at h
      by_cases hi : current_entries_len st ≠ 0 ∧ i < current_entries_len st - 1 <;>
        simp [hi] <;> omega
  | PopLauncher i =>
      rw [hs] at h
      simp only [decide_eq_true_eq] at h
      by_cases hi : current_entries_len st ≠ 0 ∧ i < current_entries_len st - 1 <;>
        simp [hi] <;> omega

/-- A concrete mode resolver for test states: web shortcut `"w"`
(modifier display `"w "`), a non-history plugin shortcut `"="`, and
default desktop-entry search otherwise. -/
def resolveFix : Resolver := fun input =>
  match rustStripPfx input "w " with
  | some rest => (ActiveMode.Web "w", "w ", rest)
  | none =>
      match rustStripPfx input "=" with
      | some rest => (ActiveMode.Plugin "calc" "=" false, "=", rest)
      | none => (ActiveMode.DesktopEntry, "", input)

/-- A concrete history cache for test states. -/
def cacheFix : Cache where
  plugin_history := fun name => if name = "p" then [{ query := "cats" }] else []
  web_history := fun name => if name = "w" then [{ query := "cats" }] else []
  de_history := [{ path := "/usr/share/applications/firefox.desktop" }]

/-- The empty history cache. -/
def emptyCache : Cache where
  plugin_history := fun _ => []
  web_history := fun _ => []
  de_history := []

/-- A concrete controller state: web mode `"w"`, nothing selected, one
live result. -/
def stFix : OnagreState where
  raw_input := "w cats"
  modifier_display := "w "
  input_display := "cats"
  selected := Selection.Reset
  pop_search := [{ id := 0, name := "cats" }]
  exec_on_next_search := false
  mode := ActiveMode.Web "w"
  cache := cacheFix

/-- State `stFix` with history-domain index 0 selected (the web history for
`"w"` has exactly one record, so 0 is also the last index). -/
def stH0 : OnagreState := { stFix with selected := Selection.History 0 }

/-- C3: a Down transition from `Unselected` yields history-domain
index 0 regardless of the active mode, and a Down from an indexed
state `i` yields `i+1` exactly when `i+1 < total_items` for the
current mode, leaving the selection (and the whole state) unchanged
otherwise: `inc_selected` refines the spec-side `down_spec`. -/
theorem c3_down_transition (st : OnagreState) : inc_selected st = down_spec st := by
  unfold inc_selected down_spec
  cases hs : st.selected with
  | Reset => rfl
  | History i =>
      dsimp only
      by_cases h : i + 1 < current_entries_len st
      · rw [if_pos (show current_entries_len st ≠ 0 ∧ i < current_entries_len st - 1 by omega),
          if_pos h]
      · rw [if_neg (show ¬(current_entries_len st ≠ 0 ∧ i < current_entries_len st - 1) by
          omega), if_neg h]
  | PopLauncher i =>
      dsimp only
      by_cases h : i + 1 < current_entries_len st
      · rw [if_pos (show current_entries_len st ≠ 0 ∧ i < current_entries_len st - 1 by omega),
          if_pos h]
      · rw [if_neg (show ¬(current_entries_len st ≠ 0 ∧ i < current_entries_len st - 1) by
          omega), if_neg h]

/-- C8: boundary transitions are no-ops: Down at the last index
(`i + 1 = total_items`) leaves the state unchanged in either index
domain, Up at index 0 leaves the state unchanged in either index
domain, and Up from `Unselected` leaves the selection `Unselected`. -/
theorem c8_boundary_noop (st : OnagreState) (i : Nat) :
    (st.selected = Selection.History i → i + 1 = current_entries_len st →
      inc_selected st = st) ∧
    (st.selected = Selection.PopLauncher i → i + 1 = current_entries_len st →
      inc_selected st = st) ∧
    (st.selected = Selection.History 0 → dec_selected st = st) ∧
    (st.selected = Selection.PopLauncher 0 → dec_selected st = st) ∧
    (st.selected = Selection.Reset → dec_selected st = st) := by
  refine ⟨?_, ?_, ?_, ?_, ?_⟩
  · intro hs hlen
    unfold inc_selected
    rw [hs]
    simp only []
    rw [if_neg (by omega)]
  · intro hs hlen
    unfold inc_selected
    rw [hs]
    simp only []
    rw [if_neg (by omega)]
  · intro hs
    unfold dec_selected
    rw [hs]
    simp
  · intro hs
    unfold dec_selected
    rw [hs]
    simp
  · intro hs
    unfold dec_selected
    rw [hs]
    simp only []
    cases st
    simp_all

/-- Witness for C8 at concrete states: in `stH0` index 0 is the last
index of a one-element list, so Down and Up are both no-ops, and Up
from the unselected `stFix` is a no-op. -/
theorem c8_boundary_noop_witness :
    inc_selected stH0 = stH0 ∧ dec_selected stH0 = stH0 ∧ dec_selected stFix = stFix :=
  ⟨(c8_boundary_noop stH0 0).1 rfl rfl,
   (c8_boundary_noop stH0 0).2.2.1 rfl,
   (c8_boundary_noop stFix 0).2.2.2.2 rfl⟩

/-- C10: Up and Down preserve the index domain of an indexed
selection (history stays history, live stays live); the only
domain-introducing transition is Down from `Unselected`, which yields
history-domain index 0 (while Up keeps `Unselected`). -/
theorem c10_domain_preservation (st : OnagreState) (d : SelDomain) :
    (sel_domain st.selected = some d →
      sel_domain (inc_selected st).selected = some d ∧
      sel_domain (dec_selected st).selected = some d) ∧
    (st.selected = Selection.Reset →
      (inc_selected st).selected = Selection.History 0 ∧
      (dec_selected st).selected = Selection.Reset) := by
  rw [inc_selected_sel, dec_selected_sel]
  cases hs : st.selected with
  | Reset => simp [sel_domain]
  | History i =>
      refine ⟨fun hd => ?_, fun hr => by simp at hr⟩
      constructor <;> simp only [] <;> split <;> simpa [sel_domain] using hd
  | PopLauncher i =>
      refine ⟨fun hd => ?_, fun hr => by simp at hr⟩
      constructor <;> simp only [] <;> split <;> simpa [sel_domain] using hd

/-- Witness for C10 at concrete states: from history-domain index 0
both arrows stay in the history domain, and from `Unselected` Down
lands at history-domain 0 while Up stays `Unselected`. -/
theorem c10_domain_preservation_witness :
    (sel_domain (inc_selected stH0).selected = some SelDomain.hist ∧
      sel_domain (dec_selected stH0).selected = some SelDomain.hist) ∧
    ((inc_selected stFix).selected = Selection.History 0 ∧
      (dec_selected stFix).selected = Selection.Reset) :=
  ⟨(c10_domain_preservation stH0 SelDomain.hist).1 rfl,
   (c10_domain_preservation stFix SelDomain.hist).2 rfl⟩

/-- State `stFix` with the one-shot activation flag set, as left by the
Execution Flow after re-issuing a `Search` for a stored query. -/
def stExec : OnagreState := { stFix with exec_on_next_search := true }

/-- State `stFix` over an empty history cache: the current mode (web `"w"`)
has zero items. -/
def stEmptyWeb : OnagreState := { stFix with cache := emptyCache }

/-- C1 (counterexample): with `exec_on_next_search` set, handling a
`ResultsUpdated` response leaves the flag still set — the code never
clears it — whereas the claim says the handler clears it. -/
theorem c1_flag_not_cleared_cex :
    ((on_pop_launcher_message resolveFix (some ()) true stExec
        (SubscriptionMessage.PopMessage (PopResponse.Update [{ id := 1, name := "new" }]))).toOption.map
      (fun r => r.1.exec_on_next_search)) = some true ∧
      (some true : Option Bool) ≠ some false :=
  ⟨rfl, by decide⟩

/-- C1 (amended): with `exec_on_next_search` set and the channel ready
and working, handling the next `ResultsUpdated` issues exactly an
`Activate(0)` request and leaves the whole state unchanged — so
`pop_search` is NOT replaced by the new list and the flag REMAINS set
(the code does not clear it). -/
theorem c1_update_exec_amended (resolve : Resolver) (st : OnagreState)
    (entries : List PopEntry) (hflag : st.exec_on_next_search = true) :
    on_pop_launcher_message resolve (some ()) true st
        (SubscriptionMessage.PopMessage (PopResponse.Update entries)) =
      Except.ok (st, some (), [Effect.PopReq (PopRequest.Activate 0)]) := by
  unfold on_pop_launcher_message
  simp [hflag, pop_request]

/-- Witness for C1 at a concrete state with the flag set. -/
theorem c1_update_exec_witness :
    on_pop_launcher_message resolveFix (some ()) true stExec
        (SubscriptionMessage.PopMessage (PopResponse.Update [{ id := 1, name := "new" }])) =
      Except.ok (stExec, some (), [Effect.PopReq (PopRequest.Activate 0)]) :=
  c1_update_exec_amended resolveFix stExec [{ id := 1, name := "new" }] rfl

/-- C2 (counterexample): from an in-bounds `Unselected` state whose
current mode has zero items, a single Down lands at history-domain
index 0, which is NOT below the current mode's item count — refuting
the claim precisely in its "Down from Unselected when the relevant
list is empty" case. -/
theorem c2_down_empty_cex :
    sel_in_bounds stEmptyWeb = true ∧
      (inc_selected stEmptyWeb).selected = Selection.History 0 ∧
      current_entries_len (inc_selected stEmptyWeb) = 0 ∧
      sel_in_bounds (inc_selected stEmptyWeb) = false :=
  ⟨rfl, rfl, rfl, rfl⟩

/-- C2 (amended): provided the current mode's item count is nonzero,
every sequence of Up/Down transitions started from a state whose
selection index (if any) is in bounds keeps the index strictly below
the current mode's item count (and a `Nat` index is never below 0);
with a zero item count, Down from `Unselected` violates the bound. -/
theorem c2_clamping_amended (st : OnagreState) (moves : List Move)
    (hlen : 0 < current_entries_len st) (hinv : sel_in_bounds st = true) :
    sel_in_bounds (apply_moves st moves) = true := by
  induction moves generalizing st with
  | nil => exact hinv
  | cons m ms ih =>
      cases m with
      | up =>
          show sel_in_bounds (apply_moves (dec_selected st) ms) = true
          exact ih (dec_selected st) (by rw [current_entries_len_dec]; exact hlen)
            (sel_in_bounds_dec st hinv)
      | down =>
          show sel_in_bounds (apply_moves (inc_selected st) ms) = true
          exact ih (inc_selected st) (by rw [current_entries_len_inc]; exact hlen)
            (sel_in_bounds_inc st hlen hinv)

/-- Witness for C2 at a concrete state: one history item, a five-step
arrow sequence stays in bounds. -/
theorem c2_clamping_witness :
    sel_in_bounds (apply_moves stH0 [Move.down, Move.down, Move.up, Move.up, Move.down]) =
      true :=
  c2_clamping_amended stH0 [Move.down, Move.down, Move.up, Move.up, Move.down]
    (by decide) rfl

/-- C4 (counterexample): handling `ContextRequested` does not produce
any successful (log-and-no-op) outcome: it aborts with the
`todo!("Discrete graphics is not implemented")` panic. -/
theorem c4_context_panics_cex :
    (on_pop_launcher_message resolveFix (some ()) true stFix
        (SubscriptionMessage.PopMessage PopResponse.Context)).toOption = none ∧
      on_pop_launcher_message resolveFix (some ()) true stFix
          (SubscriptionMessage.PopMessage PopResponse.Context) =
        Except.error "not yet implemented: Discrete graphics is not implemented" :=
  ⟨rfl, rfl⟩

/-- C4 (amended): handling a `ContextRequested` response always aborts
the controller with the unimplemented-feature panic (`todo!`), for
every state and channel condition; it is not a log-and-no-op. -/
theorem c4_context_abort_amended (resolve : Resolver) (tx : Option Unit) (sendOk : Bool)
    (st : OnagreState) :
    on_pop_launcher_message resolve tx sendOk st
        (SubscriptionMessage.PopMessage PopResponse.Context) =
      Except.error "not yet implemented: Discrete graphics is not implemented" := rfl

/-- C5 (counterexample): an input change resolving to plugin mode with
`history = false` — not the default search mode — sets the selection
to live-results index 0, not to `Unselected` as the claim requires for
every non-default mode. -/
theorem c5_plugin_live_reset_cex :
    ((on_input_changed resolveFix (some ()) true stFix "=2+2").toOption.map
      (fun r => (r.1.mode, r.1.selected))) =
      some (ActiveMode.Plugin "calc" "=" false, Selection.PopLauncher 0) ∧
      ActiveMode.Plugin "calc" "=" false ≠ ActiveMode.DesktopEntry :=
  ⟨rfl, by decide⟩

/-- C5 (amended): on every completed input change the selection never
retains a previous index: it becomes live-results index 0 in the
default search mode AND in plugin mode when not browsing history, and
`Unselected` in web, desktop-entry-history and plugin-history modes. -/
theorem c5_input_reset_amended (resolve : Resolver) (tx : Option Unit) (sendOk : Bool)
    (st st2 : OnagreState) (input : String) (effects : List Effect)
    (hok : on_input_changed resolve tx sendOk st input = Except.ok (st2, effects)) :
    st2.selected =
      match (resolve input).1 with
      | ActiveMode.Web _ => Selection.Reset
      | ActiveMode.History => Selection.Reset
      | ActiveMode.Plugin _ _ true => Selection.Reset
      | _ => Selection.PopLauncher 0 := by
  unfold on_input_changed set_input at hok
  dsimp only at hok
  revert hok
  cases hm : (resolve input).1 with
  | Plugin n m hist =>
      cases hist <;> intro hok <;> simp only [get_input] at hok <;>
        cases hpr : pop_request tx sendOk (PopRequest.Search input) <;> rw [hpr] at hok <;>
        simp at hok <;> obtain ⟨h1, -⟩ := hok <;> subst h1 <;> rfl
  | Web w =>
      intro hok
      simp only [get_input] at hok
      try dsimp only at hok
      cases hpr : pop_request tx sendOk (PopRequest.Search input) <;> rw [hpr] at hok <;>
        simp at hok
      obtain ⟨h1, -⟩ := hok
      subst h1
      rfl
  | History =>
      intro hok
      try dsimp only at hok
      simp at hok
      obtain ⟨h1, -⟩ := hok
      subst h1
      rfl
  | DesktopEntry =>
      intro hok
      simp only [get_input] at hok
      try dsimp only at hok
      cases hpr : pop_request tx sendOk (PopRequest.Search input) <;> rw [hpr] at hok <;>
        simp at hok
      obtain ⟨h1, -⟩ := hok
      subst h1
      rfl

/-- Witness for C5 at a concrete web-mode input change: the selection
becomes `Unselected`. -/
theorem c5_input_reset_witness :
    ((on_input_changed resolveFix (some ()) true stFix "w dogs").toOption.map
      (fun r => r.1.selected)) = some Selection.Reset := by
  have h := c5_input_reset_amended resolveFix (some ()) true stFix
      { set_input resolveFix stFix "w dogs" with selected := Selection.Reset }
      "w dogs" [Effect.PopReq (PopRequest.Search "w dogs")] rfl
  exact congrArg some (h.trans rfl)

/-- C6: handling `AutocompleteFill(text)`: when the current modifier
prefix is a prefix of `text`, the handler sets the query display to
`text` with the prefix stripped, moves the edit cursor to the end, and
re-enters the input-changed flow with the stripped text; when the
prefix is absent, it aborts with the `"Auto-completion Error"` panic
instead of updating the input. -/
theorem c6_autocomplete_fill (resolve : Resolver) (tx : Option Unit) (sendOk : Bool)
    (st : OnagreState) (fill : String) :
    (∀ stripped, rustStripPfx fill st.modifier_display = some stripped →
      on_pop_launcher_message resolve tx sendOk st
          (SubscriptionMessage.PopMessage (PopResponse.Fill fill)) =
        (match on_input_changed resolve tx sendOk
            { st with input_display := stripped } stripped with
         | Except.ok (st2, effects) => Except.ok (st2, tx, Effect.MoveCursorToEnd :: effects)
         | Except.error e => Except.error e)) ∧
    (rustStripPfx fill st.modifier_display = none →
      on_pop_launcher_message resolve tx sendOk st
          (SubscriptionMessage.PopMessage (PopResponse.Fill fill)) =
        Except.error "Auto-completion Error") := by
  constructor
  · intro stripped hsp
    unfold on_pop_launcher_message
    dsimp only
    rw [hsp]
  · intro hsp
    unfold on_pop_launcher_message
    dsimp only
    rw [hsp]

/-- Witness for C6: with modifier prefix `"w "`, the fill
`"w google maps"` strips to a query display of exactly
`"google maps"`, and a fill missing the prefix aborts. -/
theorem c6_autocomplete_fill_witness :
    rustStripPfx "w google maps" stFix.modifier_display = some "google maps" ∧
    on_pop_launcher_message resolveFix (some ()) true stFix
        (SubscriptionMessage.PopMessage (PopResponse.Fill "w google maps")) =
      (match on_input_changed resolveFix (some ()) true
          { stFix with input_display := "google maps" } "google maps" with
       | Except.ok (st2, effects) => Except.ok (st2, some (), Effect.MoveCursorToEnd :: effects)
       | Except.error e => Except.error e) ∧
    ((on_pop_launcher_message resolveFix (some ()) true stFix
        (SubscriptionMessage.PopMessage (PopResponse.Fill "w google maps"))).toOption.map
      (fun r => r.1.input_display)) = some "google maps" ∧
    on_pop_launcher_message resolveFix (some ()) true stFix
        (SubscriptionMessage.PopMessage (PopResponse.Fill "oops")) =
      Except.error "Auto-completion Error" :=
  ⟨rfl,
   (c6_autocomplete_fill resolveFix (some ()) true stFix "w google maps").1 "google maps" rfl,
   by rfl,
   (c6_autocomplete_fill resolveFix (some ()) true stFix "oops").2 rfl⟩

/-- The history-browsing confirm modes: plugin mode with the
browsing-history flag, and web mode. -/
def is_history_browsing : ActiveMode → Bool
  | ActiveMode.Plugin _ _ history => history
  | ActiveMode.Web _ => true
  | _ => false

/-- The persistence scope (mode key) a persist effect writes under. -/
def persist_key : Effect → Option String
  | Effect.PersistPlugin plugin_name _ => some plugin_name
  | Effect.PersistWeb _ kind => some kind
  | _ => none

/-- The persistence scope of an active mode. -/
def mode_key : ActiveMode → Option String
  | ActiveMode.Plugin plugin_name _ _ => some plugin_name
  | ActiveMode.Web web_name => some web_name
  | _ => none

theorem current_entry_exec (st : OnagreState) (b : Bool) :
    current_entry { st with exec_on_next_search := b } = current_entry st := by
  cases st
  rfl

/-- C7: on Enter in a history-browsing mode (plugin-history or web),
the handler persists under that mode's key; with no selection it
issues `Activate(0)` and leaves `exec_on_next_search` unchanged; with
a resolved selection it sets `exec_on_next_search` and issues a
`Search` for the exact command the selection resolves to. -/
theorem c7_history_confirm (resolve : Resolver) (tx : Option Unit) (sendOk : Bool)
    (st st2 : OnagreState) (effects : List Effect)
    (hok : on_execute resolve tx sendOk st = Except.ok (st2, effects))
    (hmode : is_history_browsing st.mode = true) :
    (∃ e ∈ effects, persist_key e = mode_key st.mode) ∧
    (st.selectedIdx = none →
      Effect.PopReq (PopRequest.Activate 0) ∈ effects ∧
      st2.exec_on_next_search = st.exec_on_next_search) ∧
    (∀ i, st.selectedIdx = some i →
      ∃ command, current_entry st = Except.ok (some command) ∧
        Effect.PopReq (PopRequest.Search command) ∈ effects ∧
        st2.exec_on_next_search = true) := by
  unfold on_execute at hok
  cases hm : st.mode with
  | Plugin n m hist =>
      rw [hm] at hok
      cases hist with
      | false =>
          rw [hm] at hmode
          simp [is_history_browsing] at hmode
      | true =>
          dsimp only at hok
          cases hsel : st.selectedIdx with
          | none =>
              rw [hsel] at hok
              dsimp only at hok
              cases hpr : pop_request tx sendOk (PopRequest.Activate 0) <;> rw [hpr] at hok <;>
                simp at hok
              obtain ⟨h1, h2⟩ := hok
              subst h1
              subst h2
              refine ⟨⟨Effect.PersistPlugin n (get_input st), by simp, rfl⟩, ?_, ?_⟩
              · intro _
                exact ⟨by simp, rfl⟩
              · intro i hi
                simp at hi
          | some k =>
              rw [hsel] at hok
              dsimp only at hok
              have hcee : current_entry
                  { raw_input := st.raw_input, modifier_display := st.modifier_display,
                    input_display := st.input_display, selected := st.selected,
                    pop_search := st.pop_search, exec_on_next_search := true,
                    mode := ActiveMode.Plugin n m true, cache := st.cache } =
                  current_entry st := by
                cases st with
                | mk ri md idisp sel ps ex mo ca =>
                    dsimp only at hm ⊢
                    subst hm
                    rfl
              rw [hcee] at hok
              cases hce : current_entry st with
              | error e => rw [hce] at hok; simp at hok
              | ok oc =>
                  cases oc with
                  | none => rw [hce] at hok; simp at hok
                  | some command =>
                      rw [hce] at hok
                      dsimp only at hok
                      cases hpr : pop_request tx sendOk (PopRequest.Search command) <;>
                        rw [hpr] at hok <;> simp at hok
                      obtain ⟨h1, h2⟩ := hok
                      subst h1
                      subst h2
                      refine ⟨⟨Effect.PersistPlugin n (get_input st), by simp, rfl⟩, ?_, ?_⟩
                      · intro hn
                        simp at hn
                      · intro i _
                        exact ⟨command, rfl, by simp, rfl⟩
  | Web w =>
      rw [hm] at hok
      dsimp only at hok
      cases hq : rustStripPfx (get_input st) w with
      | none => rw [hq] at hok; simp at hok
      | some q =>
          rw [hq] at hok
          dsimp only at hok
          cases hsel : st.selectedIdx with
          | none =>
              rw [hsel] at hok
              dsimp only at hok
              cases hpr : pop_request tx sendOk (PopRequest.Activate 0) <;> rw [hpr] at hok <;>
                simp at hok
              obtain ⟨h1, h2⟩ := hok
              subst h1
              subst h2
              refine ⟨⟨Effect.PersistWeb q w, by simp, rfl⟩, ?_, ?_⟩
              · intro _
                exact ⟨by simp, rfl⟩
              · intro i hi
                simp at hi
          | some k =>
              rw [hsel] at hok
              dsimp only at hok
              cases hce : current_entry st with
              | error e => rw [hce] at hok; simp at hok
              | ok oc =>
                  cases oc with
                  | none => rw [hce] at hok; simp at hok
                  | some command =>
                      rw [hce] at hok
                      dsimp only at hok
                      cases hpr : pop_request tx sendOk (PopRequest.Search command) <;>
                        rw [hpr] at hok <;> simp at hok
                      obtain ⟨h1, h2⟩ := hok
                      subst h1
                      subst h2
                      refine ⟨⟨Effect.PersistWeb q w, by simp, rfl⟩, ?_, ?_⟩
                      · intro hn
                        simp at hn
                      · intro i _
                        exact ⟨command, rfl, by simp, rfl⟩
  | History =>
      rw [hm] at hmode
      simp [is_history_browsing] at hmode
  | DesktopEntry =>
      rw [hm] at hmode
      simp [is_history_browsing] at hmode

/-- A concrete plugin-history state: mode `Plugin "p"` with the
browsing-history flag, history record `"cats"`, history index 0
selected. -/
def stP : OnagreState :=
  { stFix with
    raw_input := "p cats"
    modifier_display := "p "
    input_display := "cats"
    mode := ActiveMode.Plugin "p" "p " true
    selected := Selection.History 0 }

/-- The state `on_execute` leaves from `stP`. -/
def st2P : OnagreState := set_input resolveFix { stP with exec_on_next_search := true } "p cats"

/-- The effects `on_execute` produces from `stP`. -/
def effsP : List Effect :=
  [Effect.PersistPlugin "p" "p cats", Effect.PopReq (PopRequest.Search "p cats")]

/-- Witness for C7 at the concrete plugin-history state `stP` with a
resolved selection: the stored query re-resolves to `"p cats"`, a
`Search` for it is issued, the flag is set, and a persist under the
plugin's key happens. -/
theorem c7_history_confirm_witness :
    (∃ command, current_entry stP = Except.ok (some command) ∧
      Effect.PopReq (PopRequest.Search command) ∈ effsP ∧
      st2P.exec_on_next_search = true) ∧
    (∃ e ∈ effsP, persist_key e = mode_key stP.mode) := by
  have h := c7_history_confirm resolveFix (some ()) true stP st2P effsP rfl rfl
  exact ⟨h.2.2 0 rfl, h.1⟩

/-- Whether a handler outcome is an abort (a Rust `expect`/`unwrap`
panic in the code). -/
def isAborted {α : Type} : Except String α → Bool
  | Except.error _ => true
  | Except.ok _ => false

theorem pop_request_not_ok (tx : Option Unit) (sendOk : Bool)
    (hfail : tx = none ∨ sendOk = false) (r : PopRequest) :
    pop_request tx sendOk r ≠ SendResult.ok := by
  intro hc
  rcases hfail with h | h
  · subst h
    simp [pop_request] at hc
  · subst h
    cases tx with
    | none => simp [pop_request] at hc
    | some u => simp [pop_request] at hc

/-- C9: when the daemon-ready sender is absent or the channel send
fails, every request-sending operation aborts the process instead of
silently dropping the request: the `Search` of the input-changed flow
(also re-entered by autocomplete), Tab's `Complete`, the `Activate(0)`
of a pending `exec_on_next_search`, and Enter's `Activate`/`Search` in
every mode that sends (all but the desktop-entry history mode, which
sends nothing). -/
theorem c9_send_failure_fatal (resolve : Resolver) (tx : Option Unit) (sendOk : Bool)
    (st : OnagreState) (input : String) (i : Nat)
    (hfail : tx = none ∨ sendOk = false) :
    ((resolve input).1 ≠ ActiveMode.History →
      isAborted (on_input_changed resolve tx sendOk st input) = true) ∧
    (st.selectedIdx = some i →
      isAborted (handle_input resolve tx sendOk st KeyCode.Tab) = true) ∧
    (st.exec_on_next_search = true →
      isAborted (on_pop_launcher_message resolve tx sendOk st
        (SubscriptionMessage.PopMessage (PopResponse.Update []))) = true) ∧
    (st.mode ≠ ActiveMode.History →
      isAborted (on_execute resolve tx sendOk st) = true) := by
  have hno := pop_request_not_ok tx sendOk hfail
  refine ⟨?_, ?_, ?_, ?_⟩
  · intro hm
    unfold on_input_changed set_input
    simp only [get_input]
    try dsimp only
    cases hmode : (resolve input).1 with
    | History => exact absurd hmode hm
    | Plugin n mo hist =>
        try dsimp only
        cases hsr : pop_request tx sendOk (PopRequest.Search input) <;>
          first | rfl | exact absurd hsr (hno _)
    | Web w =>
        try dsimp only
        cases hsr : pop_request tx sendOk (PopRequest.Search input) <;>
          first | rfl | exact absurd hsr (hno _)
    | DesktopEntry =>
        try dsimp only
        cases hsr : pop_request tx sendOk (PopRequest.Search input) <;>
          first | rfl | exact absurd hsr (hno _)
  · intro hsel
    unfold handle_input
    rw [hsel]
    try dsimp only
    cases hsr : pop_request tx sendOk (PopRequest.Complete i) <;>
      first | rfl | exact absurd hsr (hno _)
  · intro hflag
    unfold on_pop_launcher_message
    try dsimp only
    rw [if_pos hflag]
    cases hsr : pop_request tx sendOk (PopRequest.Activate 0) <;>
      first | rfl | exact absurd hsr (hno _)
  · intro hm
    unfold on_execute
    cases hmode : st.mode with
    | History => exact absurd hmode hm
    | Plugin n mo hist =>
        cases hist with
        | true =>
            try dsimp only
            cases hsel : st.selectedIdx with
            | none =>
                try dsimp only
                cases hsr : pop_request tx sendOk (PopRequest.Activate 0) <;>
                  first | rfl | exact absurd hsr (hno _)
            | some k =>
                try dsimp only
                cases hce : current_entry
                    { raw_input := st.raw_input, modifier_display := st.modifier_display,
                      input_display := st.input_display, selected := st.selected,
                      pop_search := st.pop_search, exec_on_next_search := true,
                      mode := ActiveMode.Plugin n mo true, cache := st.cache } with
                | error e => rfl
                | ok oc =>
                    cases oc with
                    | none => rfl
                    | some command =>
                        try dsimp only
                        cases hsr : pop_request tx sendOk (PopRequest.Search command) <;>
                          first | rfl | exact absurd hsr (hno _)
        | false =>
            try dsimp only
            cases hsel : st.selectedIdx with
            | none =>
                try dsimp only
                cases hsr : pop_request tx sendOk (PopRequest.Activate 0) <;>
                  first | rfl | exact absurd hsr (hno _)
            | some k =>
                try dsimp only
                cases hsr : pop_request tx sendOk (PopRequest.Activate k) <;>
                  first | rfl | exact absurd hsr (hno _)
    | Web w =>
        try dsimp only
        cases hq : rustStripPfx (get_input st) w with
        | none => rfl
        | some q =>
            try dsimp only
            cases hsel : st.selectedIdx with
            | none =>
                try dsimp only
                cases hsr : pop_request tx sendOk (PopRequest.Activate 0) <;>
                  first | rfl | exact absurd hsr (hno _)
            | some k =>
                try dsimp only
                cases hce : current_entry st with
                | error e => rfl
                | ok oc =>
                    cases oc with
                    | none => rfl
                    | some command =>
                        try dsimp only
                        cases hsr : pop_request tx sendOk (PopRequest.Search command) <;>
                          first | rfl | exact absurd hsr (hno _)
    | DesktopEntry =>
        try dsimp only
        cases hsel : st.selectedIdx with
        | none =>
            try dsimp only
            cases hsr : pop_request tx sendOk (PopRequest.Activate 0) <;>
              first | rfl | exact absurd hsr (hno _)
        | some k =>
            try dsimp only
            cases hsr : pop_request tx sendOk (PopRequest.Activate k) <;>
              first | rfl | exact absurd hsr (hno _)

/-- Witness for C9 with the sender still absent (`tx = none`): input
change, Tab with a selection, a pending-flag `ResultsUpdated`, and
Enter all abort. -/
theorem c9_send_failure_fatal_witness :
    isAborted (on_input_changed resolveFix none true stFix "dogs") = true ∧
    isAborted (handle_input resolveFix none true stH0 KeyCode.Tab) = true ∧
    isAborted (on_pop_launcher_message resolveFix none true stExec
      (SubscriptionMessage.PopMessage (PopResponse.Update []))) = true ∧
    isAborted (on_execute resolveFix none true stFix) = true := by
  have h := c9_send_failure_fatal resolveFix none true stFix "dogs" 0 (Or.inl rfl)
  have h2 := c9_send_failure_fatal resolveFix none true stH0 "dogs" 0 (Or.inl rfl)
  have h3 := c9_send_failure_fatal resolveFix none true stExec "dogs" 0 (Or.inl rfl)
  exact ⟨h.1 (by decide), h2.2.1 rfl, h3.2.2.1 rfl, h.2.2.2 (by decide)⟩
